import Mathlib

/-!
Verification of the stock-dashboard repository's analytical core against its
natural-language specification.  Python floats are modelled as rationals
(`ℚ`); Python dicts as association lists with first-match lookup (the dicts
built by this code have distinct keys); a lookup `d[k]` that would raise
`KeyError` is modelled as `Option.none`.
-/

/-- Python dict with string keys: association list, first match wins. -/
abbrev PyDict (α : Type) := List (String × α)

/-- `d[k]` / `d.get(k)`: the value stored under `k`, if any. -/
def PyDict.get {α : Type} (d : PyDict α) (k : String) : Option α :=
  (d.find? (fun p => p.1 = k)).map (fun p => p.2)

/-- A Python value stored in the `technical_signals` dict: either a label
string or a number (support/resistance levels). -/
inductive PVal where
  | str (s : String)
  | num (q : ℚ)
deriving DecidableEq, Repr

/-- The fields of `StockAnalyzer` that `get_investment_recommendation`
reads: the two signal dicts and the sentiment score. -/
structure StockAnalyzer where
  sentiment_score : ℚ
  technical_signals : PyDict PVal
  fundamental_metrics : PyDict ℚ
deriving Repr

/-- `StockAnalyzer._calculate_technical_score`: base 50, +15 for Bullish
trend, +10 for Oversold RSI, +15 for Up price trend, clamped to [0,100].
`none` models a `KeyError` on a missing dict key. -/
def calculate_technical_score (signals : PyDict PVal) : Option ℚ := do
  let trend ← signals.get "trend"
  let s1 : ℚ := 50 + (if trend = .str "Bullish" then 15 else 0)
  let rsiSig ← signals.get "rsi_signal"
  let s2 : ℚ := s1 + (if rsiSig = .str "Oversold" then 10 else 0)
  let pt ← signals.get "price_trend"
  let s3 : ℚ := s2 + (if pt = .str "Up" then 15 else 0)
  return min (max s3 0) 100

/-- `StockAnalyzer._calculate_fundamental_score`: base 50, +10 for
10 ≤ P/E ≤ 25, +10 for profit margin > 0.2, +10 for debt-to-equity < 1,
clamped to [0,100].  `none` models a `KeyError` on a missing dict key. -/
def calculate_fundamental_score (metrics : PyDict ℚ) : Option ℚ := do
  let pe ← metrics.get "pe_ratio"
  let s1 : ℚ := 50 + (if 10 ≤ pe ∧ pe ≤ 25 then 10 else 0)
  let pm ← metrics.get "profit_margin"
  let s2 : ℚ := s1 + (if pm > 2/10 then 10 else 0)
  let de ← metrics.get "debt_to_equity"
  let s3 : ℚ := s2 + (if de < 1 then 10 else 0)
  return min (max s3 0) 100

/-- `StockAnalyzer.analyze_fundamentals`: on falsy (empty) info return `{}`,
else extract the six ratios, each defaulting to 0 when absent. -/
def analyze_fundamentals (info : PyDict ℚ) : PyDict ℚ :=
  if info.isEmpty then []
  else
    [("pe_ratio", (info.get "forwardPE").getD 0),
     ("peg_ratio", (info.get "pegRatio").getD 0),
     ("profit_margin", (info.get "profitMargins").getD 0),
     ("debt_to_equity", (info.get "debtToEquity").getD 0),
     ("return_on_equity", (info.get "returnOnEquity").getD 0),
     ("quick_ratio", (info.get "quickRatio").getD 0)]

/-- `StockAnalyzer.get_investment_recommendation`: sentinel on an empty
signals dict, otherwise the weighted total 0.4·technical + 0.4·fundamental
+ 0.2·sentiment and the five-level label. -/
def get_investment_recommendation (a : StockAnalyzer) :
    Option (String × ℚ × String) :=
  if a.technical_signals.isEmpty || a.fundamental_metrics.isEmpty then
    some ("Insufficient Data", 0,
      "Unable to make recommendation due to limited data")
  else do
    let technical_score ← calculate_technical_score a.technical_signals
    let fundamental_score ← calculate_fundamental_score a.fundamental_metrics
    let sentiment_score := a.sentiment_score
    let total_score : ℚ := technical_score * (4/10) +
      fundamental_score * (4/10) + sentiment_score * (2/10)
    if total_score ≥ 70 then
      return ("Strong Buy", total_score,
        "Strong technical signals and fundamentals support buying")
    else if total_score ≥ 60 then
      return ("Buy", total_score,
        "Generally positive indicators with some caution")
    else if total_score ≥ 40 then
      return ("Hold", total_score,
        "Mixed signals suggest holding current position")
    else if total_score ≥ 30 then
      return ("Sell", total_score,
        "Weak performance indicators suggest selling")
    else
      return ("Strong Sell", total_score,
        "Multiple negative indicators suggest immediate selling")

/-- Any technical sub-score actually returned is clamped to [0,100]. -/
theorem calculate_technical_score_bounds {signals : PyDict PVal} {t : ℚ}
    (h : calculate_technical_score signals = some t) : 0 ≤ t ∧ t ≤ 100 := by
  unfold calculate_technical_score at h
  cases h1 : signals.get "trend" <;> rw [h1] at h
  case none => simp at h
  case some trend =>
  cases h2 : signals.get "rsi_signal" <;> rw [h2] at h
  case none => simp at h
  case some rsiSig =>
  cases h3 : signals.get "price_trend" <;> rw [h3] at h
  case none => simp at h
  case some pt =>
  simp at h
  subst h
  exact ⟨le_min (le_max_right _ 0) (by norm_num), min_le_right _ _⟩

/-- Any fundamental sub-score actually returned is clamped to [0,100]. -/
theorem calculate_fundamental_score_bounds {metrics : PyDict ℚ} {t : ℚ}
    (h : calculate_fundamental_score metrics = some t) : 0 ≤ t ∧ t ≤ 100 := by
  unfold calculate_fundamental_score at h
  cases h1 : metrics.get "pe_ratio" <;> rw [h1] at h
  case none => simp at h
  case some pe =>
  cases h2 : metrics.get "profit_margin" <;> rw [h2] at h
  case none => simp at h
  case some pm =>
  cases h3 : metrics.get "debt_to_equity" <;> rw [h3] at h
  case none => simp at h
  case some de =>
  simp at h
  subst h
  exact ⟨le_min (le_max_right _ 0) (by norm_num), min_le_right _ _⟩

/-- Claim C5: if either signals mapping is empty,
`get_investment_recommendation` returns the "Insufficient Data" sentinel
with score 0 and the fixed explanation, computing no sub-score. -/
theorem get_investment_recommendation_insufficient (a : StockAnalyzer)
    (h : a.technical_signals = [] ∨ a.fundamental_metrics = []) :
    get_investment_recommendation a =
      some ("Insufficient Data", 0,
        "Unable to make recommendation due to limited data") := by
  unfold get_investment_recommendation
  rcases h with h | h <;> rw [h] <;> simp

/-- Witness for C5 at the analyzer with both dicts empty. -/
theorem get_investment_recommendation_insufficient_witness :
    ((⟨0, [], []⟩ : StockAnalyzer).technical_signals = [] ∨
      (⟨0, [], []⟩ : StockAnalyzer).fundamental_metrics = []) ∧
    get_investment_recommendation ⟨0, [], []⟩ =
      some ("Insufficient Data", 0,
        "Unable to make recommendation due to limited data") :=
  ⟨Or.inl rfl, get_investment_recommendation_insufficient _ (Or.inl rfl)⟩

/-- The worked example of the spec: bullish/oversold/up technicals,
P/E 15, margin 0.25, debt-to-equity 0.5, sentiment 100. -/
def analyzerExample : StockAnalyzer where
  sentiment_score := 100
  technical_signals :=
    [("trend", .str "Bullish"), ("rsi_signal", .str "Oversold"),
     ("price_trend", .str "Up"), ("support_level", .num 0),
     ("resistance_level", .num 0)]
  fundamental_metrics :=
    [("pe_ratio", 15), ("peg_ratio", 0), ("profit_margin", 1/4),
     ("debt_to_equity", 1/2), ("return_on_equity", 0), ("quick_ratio", 0)]

/-- Claim C2: on the spec's worked example the technical sub-score is 90,
the fundamental sub-score is 80, the total is 0.4·90 + 0.4·80 + 0.2·100
= 88 and the label is "Strong Buy". -/
theorem recommendation_worked_example :
    calculate_technical_score analyzerExample.technical_signals = some 90 ∧
    calculate_fundamental_score analyzerExample.fundamental_metrics =
      some 80 ∧
    get_investment_recommendation analyzerExample =
      some ("Strong Buy", 88,
        "Strong technical signals and fundamentals support buying") := by
  refine ⟨?_, ?_, ?_⟩ <;>
    (simp [analyzerExample, get_investment_recommendation,
      calculate_technical_score, calculate_fundamental_score,
      PyDict.get, List.find?] <;> norm_num)

/-- An analyzer whose sentiment score lies far outside [0,100]: neutral
technicals and fundamentals (both sub-scores 50) and sentiment 1000. -/
def analyzerHighSentiment : StockAnalyzer where
  sentiment_score := 1000
  technical_signals :=
    [("trend", .str "Bearish"), ("rsi_signal", .str "Neutral"),
     ("price_trend", .str "Down"), ("support_level", .num 0),
     ("resistance_level", .num 0)]
  fundamental_metrics :=
    [("pe_ratio", 0), ("peg_ratio", 0), ("profit_margin", 0),
     ("debt_to_equity", 5), ("return_on_equity", 0), ("quick_ratio", 0)]

/-- Counterexample to C1 as stated: with non-empty signal dicts and
sentiment score 1000, the returned total is 240, outside [0,100] — the
code clamps only the two sub-scores, never the sentiment term or the
weighted total. -/
theorem total_score_escapes_range :
    get_investment_recommendation analyzerHighSentiment =
      some ("Strong Buy", 240,
        "Strong technical signals and fundamentals support buying") ∧
    ¬ ((240 : ℚ) ≤ 100) := by
  refine ⟨?_, by norm_num⟩
  simp [analyzerHighSentiment, get_investment_recommendation,
    calculate_technical_score, calculate_fundamental_score,
    PyDict.get, List.find?] <;> norm_num

/-- Claim C1 (amended): when the sentiment score is itself in [0,100] —
as the spec requires of the caller — every total the recommendation
returns lies in [0,100], for all non-empty signal dicts. -/
theorem total_score_in_range (a : StockAnalyzer)
    (ht : a.technical_signals ≠ []) (hf : a.fundamental_metrics ≠ [])
    (hs0 : 0 ≤ a.sentiment_score) (hs1 : a.sentiment_score ≤ 100) :
    ∀ label score expl,
      get_investment_recommendation a = some (label, score, expl) →
      0 ≤ score ∧ score ≤ 100 := by
  intro label score expl h
  unfold get_investment_recommendation at h
  rw [if_neg (by simp [List.isEmpty_iff, ht, hf])] at h
  cases hts : calculate_technical_score a.technical_signals <;> rw [hts] at h
  case none => simp at h
  case some ts =>
  cases hfs : calculate_fundamental_score a.fundamental_metrics <;>
    rw [hfs] at h
  case none => simp at h
  case some fs =>
  obtain ⟨hts0, hts1⟩ := calculate_technical_score_bounds hts
  obtain ⟨hfs0, hfs1⟩ := calculate_fundamental_score_bounds hfs
  have hlo : 0 ≤ ts * (4/10) + fs * (4/10) + a.sentiment_score * (2/10) := by
    nlinarith
  have hhi : ts * (4/10) + fs * (4/10) + a.sentiment_score * (2/10) ≤ 100 := by
    nlinarith
  simp only [Option.pure_def, Option.bind_eq_bind, Option.some_bind] at h
  split_ifs at h <;> simp only [Option.some.injEq, Prod.mk.injEq] at h <;>
    exact h.2.1 ▸ ⟨hlo, hhi⟩

/-- An analyzer with in-range sentiment for the C1 witness: sub-scores
50 and 60, sentiment 100, total 64. -/
def analyzerMidSentiment : StockAnalyzer where
  sentiment_score := 100
  technical_signals :=
    [("trend", .str "Bearish"), ("rsi_signal", .str "Neutral"),
     ("price_trend", .str "Down"), ("support_level", .num 1),
     ("resistance_level", .num 2)]
  fundamental_metrics :=
    [("pe_ratio", 12), ("peg_ratio", 0), ("profit_margin", 0),
     ("debt_to_equity", 2), ("return_on_equity", 0), ("quick_ratio", 0)]

/-- Witness for the amended C1 at a concrete analyzer (total 64). -/
theorem total_score_in_range_witness :
    analyzerMidSentiment.technical_signals ≠ [] ∧
    analyzerMidSentiment.fundamental_metrics ≠ [] ∧
    (0 ≤ analyzerMidSentiment.sentiment_score ∧
      analyzerMidSentiment.sentiment_score ≤ 100) ∧
    (0 ≤ (64 : ℚ) ∧ (64 : ℚ) ≤ 100) :=
  ⟨by simp [analyzerMidSentiment], by simp [analyzerMidSentiment],
    ⟨by norm_num [analyzerMidSentiment], by norm_num [analyzerMidSentiment]⟩,
    total_score_in_range analyzerMidSentiment (by simp [analyzerMidSentiment])
      (by simp [analyzerMidSentiment]) (by norm_num [analyzerMidSentiment])
      (by norm_num [analyzerMidSentiment]) "Buy" 64
      "Generally positive indicators with some caution"
      (by simp [analyzerMidSentiment, get_investment_recommendation,
        calculate_technical_score, calculate_fundamental_score,
        PyDict.get, List.find?] <;> norm_num)⟩

/-- Claim C10: on any non-empty info mapping, `analyze_fundamentals`
produces exactly the six fixed keys in order, each value the info value
under the provider key (default 0), and `_calculate_fundamental_score`
therefore succeeds (no `KeyError`). -/
theorem analyze_fundamentals_keys (info : PyDict ℚ) (h : info ≠ []) :
    (analyze_fundamentals info).map Prod.fst =
      ["pe_ratio", "peg_ratio", "profit_margin", "debt_to_equity",
       "return_on_equity", "quick_ratio"] ∧
    (analyze_fundamentals info).get "pe_ratio" =
      some ((info.get "forwardPE").getD 0) ∧
    (analyze_fundamentals info).get "profit_margin" =
      some ((info.get "profitMargins").getD 0) ∧
    (analyze_fundamentals info).get "debt_to_equity" =
      some ((info.get "debtToEquity").getD 0) ∧
    (calculate_fundamental_score (analyze_fundamentals info)).isSome = true
    := by
  have hne : info.isEmpty = false := by simp [List.isEmpty_iff, h]
  unfold analyze_fundamentals
  rw [hne]
  exact ⟨rfl, rfl, rfl, rfl, rfl⟩

/-- A one-entry provider info mapping, {forwardPE: 15}. -/
def sampleInfo : PyDict ℚ := [("forwardPE", 15)]

/-- Witness for C10 at the one-entry info mapping {forwardPE: 15}. -/
theorem analyze_fundamentals_keys_witness :
    sampleInfo ≠ [] ∧
    ((analyze_fundamentals sampleInfo).map Prod.fst =
      ["pe_ratio", "peg_ratio", "profit_margin", "debt_to_equity",
       "return_on_equity", "quick_ratio"] ∧
    (analyze_fundamentals sampleInfo).get "pe_ratio" =
      some ((sampleInfo.get "forwardPE").getD 0) ∧
    (analyze_fundamentals sampleInfo).get "profit_margin" =
      some ((sampleInfo.get "profitMargins").getD 0) ∧
    (analyze_fundamentals sampleInfo).get "debt_to_equity" =
      some ((sampleInfo.get "debtToEquity").getD 0) ∧
    (calculate_fundamental_score
      (analyze_fundamentals sampleInfo)).isSome = true) :=
  ⟨by simp [sampleInfo], analyze_fundamentals_keys _ (by simp [sampleInfo])⟩

/-! ### Ticker validation and data fetching (`stock_utils.py`).
Python strings are modelled as lists of characters so that the string
operations of the source compute inside Lean; the tickers involved are
ASCII, where Lean's `Char.toUpper`/`Char.isAlphanum` agree with Python's
`str.upper`/`str.isalnum`. -/

/-- A Python `str`, as its list of characters. -/
abbrev PyStr := List Char

/-- The whitespace characters `str.strip()` removes. -/
def pyIsSpace (c : Char) : Bool :=
  c = ' ' || c = '\t' || c = '\n' || c = '\r' || c = '\x0b' || c = '\x0c'

/-- `str.strip()`: drop leading and trailing whitespace. -/
def pyStrip (s : PyStr) : PyStr :=
  ((s.dropWhile pyIsSpace).reverse.dropWhile pyIsSpace).reverse

/-- `str.upper()`. -/
def pyUpper (s : PyStr) : PyStr := s.map Char.toUpper

/-- `str.split(sep)` for a one-character separator: the list of chunks
between occurrences of `sep` (never empty; `"".split(sep) == [""]`). -/
def pySplit (sep : Char) : PyStr → List PyStr
  | [] => [[]]
  | c :: rest =>
    let r := pySplit sep rest
    if c = sep then [] :: r
    else (c :: r.headD []) :: r.tail

/-- `str.isalnum()`: non-empty and every character alphanumeric. -/
def pyIsAlnum (s : PyStr) : Bool := !s.isEmpty && s.all Char.isAlphanum

/-- The fixed exchange-suffix allow-list in `validate_ticker`. -/
def valid_suffixes : List PyStr :=
  [".NS".data, ".BO".data, ".L".data, ".PA".data, ".DE".data, ".HK".data]

/-- `StockDataFetcher.validate_ticker`: reject falsy (empty) input; strip
and upper-case; require the part before the first dot to be alphanumeric
once hyphens are removed; for dotted symbols reject an unrecognized
suffix only together with length > 6; for undotted symbols reject
length > 5. -/
def validate_ticker (symbol : PyStr) : Bool :=
  if symbol.isEmpty then false
  else
    let s := pyUpper (pyStrip symbol)
    let base := (pySplit '.' s).headD []
    if !(pyIsAlnum (base.filter (fun c => c != '-'))) then false
    else if s.contains '.' then
      let sfx := '.' :: ((pySplit '.' s).getD 1 [])
      if sfx ∉ valid_suffixes ∧ 6 < s.length then false
      else true
    else if 5 < s.length then false
    else true

/-- The provider-side outcomes visible to one `fetch_stock_data` call:
each field is the result of one network request (`Except.error` models a
raised exception; the table contents are irrelevant to the claims and
stand in as lists of rationals). -/
structure Provider where
  quick_history : Except Unit (List ℚ)
  full_history : Except Unit (List ℚ)
  info : Except Unit (PyDict ℚ)

/-- `StockDataFetcher.fetch_stock_data`, paired with the number of
provider requests the call issues: validation failure returns before any
request; the one-day probe is request 1, the full range fetch request 2,
the company-info lookup request 3 (an info failure degrades to `{}`). -/
def fetch_stock_data (p : Provider) (symbol : PyStr) :
    (Option (List ℚ) × Option (PyDict ℚ)) × Nat :=
  if ¬ validate_ticker symbol then ((none, none), 0)
  else
    match p.quick_history with
    | .error _ => ((none, none), 1)
    | .ok d =>
      if d.isEmpty then ((none, none), 1)
      else
        match p.full_history with
        | .error _ => ((none, none), 2)
        | .ok d2 =>
          if d2.isEmpty then ((none, none), 2)
          else
            match p.info with
            | .error _ => ((some d2, some []), 3)
            | .ok i => ((some d2, some i), 3)

/-- Claim C4: a symbol failing validation yields the pair `(None, None)`
and zero provider requests, for every provider behavior. -/
theorem fetch_stock_data_invalid (p : Provider) (symbol : PyStr)
    (h : validate_ticker symbol = false) :
    fetch_stock_data p symbol = ((none, none), 0) := by
  simp [fetch_stock_data, h]

/-- Witness for C4: the non-alphanumeric symbol `"!!"` is rejected with
no request even against a fully healthy provider. -/
theorem fetch_stock_data_invalid_witness :
    validate_ticker "!!".data = false ∧
    fetch_stock_data ⟨.ok [1], .ok [1], .ok []⟩ "!!".data =
      ((none, none), 0) :=
  ⟨by decide, fetch_stock_data_invalid _ _ (by decide)⟩

/-- Counterexample to C7 as stated: `"AB.XY"` carries the unrecognized
suffix `".XY"` yet `validate_ticker` accepts it — the invalid-suffix
rejection additionally requires the symbol to be longer than 6
characters, so the rejection is not length-independent. -/
theorem validate_ticker_accepts_short_bad_suffix :
    ("AB.XY".data).contains '.' = true ∧
    ('.' :: ((pySplit '.' (pyUpper (pyStrip "AB.XY".data))).getD 1 []))
      ∉ valid_suffixes ∧
    validate_ticker "AB.XY".data = true :=
  ⟨by decide, by decide, by decide⟩

/-- Claim C7 (amended): a symbol whose normalized form contains a dot and
an unrecognized suffix is rejected whenever the normalized symbol is
longer than 6 characters (without that length condition the suffix check
is skipped). -/
theorem validate_ticker_rejects_bad_suffix (symbol : PyStr)
    (hdot : (pyUpper (pyStrip symbol)).contains '.' = true)
    (hsfx : ('.' :: ((pySplit '.' (pyUpper (pyStrip symbol))).getD 1 []))
      ∉ valid_suffixes)
    (hlen : 6 < (pyUpper (pyStrip symbol)).length) :
    validate_ticker symbol = false := by
  simp only [validate_ticker]
  split_ifs <;> first
    | rfl
    | exact absurd (And.intro hsfx hlen) (by assumption)

/-- Witness for the amended C7 at the 9-character symbol `"ABCDEF.XY"`. -/
theorem validate_ticker_rejects_bad_suffix_witness :
    (pyUpper (pyStrip "ABCDEF.XY".data)).contains '.' = true ∧
    ('.' :: ((pySplit '.' (pyUpper (pyStrip "ABCDEF.XY".data))).getD 1 []))
      ∉ valid_suffixes ∧
    6 < (pyUpper (pyStrip "ABCDEF.XY".data)).length ∧
    validate_ticker "ABCDEF.XY".data = false :=
  ⟨by decide, by decide, by decide,
    validate_ticker_rejects_bad_suffix _ (by decide) (by decide) (by decide)⟩

/-! ### Technical indicators (`stock_analyzer.py`): rolling means, the
trend signal and the RSI.  Pandas produces IEEE floats where a missing
window yields NaN, every comparison against NaN is false, a positive
number divided by 0.0 is +∞ (so 100 − 100/(1+∞) = 100) and 0.0/0.0 is
NaN; `PFloat` makes those cells explicit. -/

/-- A pandas float cell: NaN or a number. -/
inductive PFloat where
  | nan
  | val (q : ℚ)
deriving DecidableEq, Repr

/-- Python `a > b` on float cells: any comparison with NaN is false. -/
def PFloat.gtb : PFloat → PFloat → Bool
  | .val a, .val b => decide (b < a)
  | _, _ => false

/-- `Series.rolling(window=w).mean()` with the default `min_periods`:
position `i` is NaN until a full window is available, then the mean of
the `w` entries ending at position `i`. -/
def rollingMean (w : Nat) (xs : List ℚ) : List PFloat :=
  (List.range xs.length).map fun i =>
    if i + 1 < w then .nan
    else .val (((xs.take (i + 1)).drop (i + 1 - w)).sum / w)

/-- The `trend` entry of `analyze_technicals`:
`'Bullish' if sma_50[-1] > sma_200[-1] else 'Bearish'`.  `none` models
the `IndexError` that indexing `[-1]` raises on an empty series. -/
def trendSignal (close_prices : List ℚ) : Option String := do
  let s50 ← (rollingMean 50 close_prices).getLast?
  let s200 ← (rollingMean 200 close_prices).getLast?
  return if s50.gtb s200 then "Bullish" else "Bearish"

/-- `prices.diff()` without its leading NaN cell: consecutive deltas. -/
def priceDeltas (prices : List ℚ) : List ℚ :=
  (prices.tail.zip prices).map fun p => p.1 - p.2

/-- `delta.where(delta > 0, 0)`: the leading NaN of `diff()` fails the
`> 0` test and becomes 0; other cells keep their positive part. -/
def gainSeries (prices : List ℚ) : List ℚ :=
  if prices.isEmpty then []
  else 0 :: (priceDeltas prices).map fun d => max d 0

/-- `-delta.where(delta < 0, 0)`: magnitudes of the negative deltas,
with the leading NaN cell likewise replaced by 0. -/
def lossSeries (prices : List ℚ) : List ℚ :=
  if prices.isEmpty then []
  else 0 :: (priceDeltas prices).map fun d => max (-d) 0

/-- The last entry of `_calculate_rsi(prices)` — the value
`analyze_technicals` reads as `rsi[-1]`: rs = (rolling mean gain) /
(rolling mean loss) over the last `period` positions, RSI =
100 − 100/(1+rs), with the IEEE outcomes at loss 0 spelled out
(gain/0 = +∞ gives RSI 100; 0/0 gives NaN). -/
def rsiLast (prices : List ℚ) (period : Nat := 14) : PFloat :=
  match (rollingMean period (gainSeries prices)).getLast?,
      (rollingMean period (lossSeries prices)).getLast? with
  | some (.val g), some (.val l) =>
    if l = 0 then (if g = 0 then .nan else .val 100)
    else .val (100 - 100 / (1 + g / l))
  | _, _ => .nan

/-- The last cell of a mapped range is the function at the last index. -/
theorem range_map_getLast {α : Type} (f : Nat → α) (n : Nat) (h : 0 < n) :
    ((List.range n).map f).getLast? = some (f (n - 1)) := by
  obtain ⟨m, rfl⟩ : ∃ m, n = m + 1 := ⟨n - 1, by omega⟩
  rw [List.range_succ, List.map_append]
  simp

/-- With history shorter than the window the latest rolling mean is NaN. -/
theorem rollingMean_getLast_nan (w : Nat) (xs : List ℚ) (h0 : xs ≠ [])
    (h : xs.length < w) : (rollingMean w xs).getLast? = some .nan := by
  have hn : 0 < xs.length := List.length_pos.mpr h0
  unfold rollingMean
  rw [range_map_getLast _ _ hn, if_pos (by omega)]

/-- With enough history the latest rolling mean is the mean of the last
`w` entries. -/
theorem rollingMean_getLast_val (w : Nat) (xs : List ℚ) (hw : 0 < w)
    (h : w ≤ xs.length) :
    (rollingMean w xs).getLast? =
      some (.val ((xs.drop (xs.length - w)).sum / w)) := by
  have hn : 0 < xs.length := by omega
  unfold rollingMean
  rw [range_map_getLast _ _ hn, if_neg (by omega)]
  have h1 : xs.length - 1 + 1 = xs.length := by omega
  rw [h1, List.take_length]

/-- Counterexample to C6 as stated: the empty price series has length
0 < 200, yet evaluating the trend signal raises — `sma_50[-1]` indexes
an empty series (`none` is that `IndexError`), so "does not raise" fails
without a non-emptiness precondition. -/
theorem trendSignal_empty_raises : trendSignal [] = none := rfl

/-- Claim C6 (amended): for every NON-EMPTY price series shorter than
the 200-period window the trend signal evaluates without an error — to
"Bearish", since a comparison against the NaN 200-SMA is false; and
whenever both latest SMAs are defined numbers the signal is "Bullish"
exactly when the 50-SMA strictly exceeds the 200-SMA, else "Bearish". -/
theorem trendSignal_spec (prices : List ℚ) :
    (prices ≠ [] → prices.length < 200 →
      trendSignal prices = some "Bearish") ∧
    (∀ a b, (rollingMean 50 prices).getLast? = some (.val a) →
      (rollingMean 200 prices).getLast? = some (.val b) →
      trendSignal prices = some (if b < a then "Bullish" else "Bearish"))
    := by
  constructor
  · intro h0 h200
    rcases Nat.lt_or_ge prices.length 50 with h50 | h50
    · unfold trendSignal
      rw [rollingMean_getLast_nan 50 prices h0 h50,
        rollingMean_getLast_nan 200 prices h0 h200]
      rfl
    · unfold trendSignal
      rw [rollingMean_getLast_val 50 prices (by norm_num) h50,
        rollingMean_getLast_nan 200 prices h0 h200]
      rfl
  · intro a b h1 h2
    unfold trendSignal
    rw [h1, h2]
    by_cases hab : b < a <;> simp [PFloat.gtb, hab]

/-- `diff()` has one delta per consecutive pair. -/
theorem priceDeltas_length (prices : List ℚ) :
    (priceDeltas prices).length = prices.length - 1 := by
  simp [priceDeltas]

/-- The gain series is as long as the price series. -/
theorem gainSeries_length (prices : List ℚ) (h : prices ≠ []) :
    (gainSeries prices).length = prices.length := by
  have hp : 0 < prices.length := List.length_pos.mpr h
  simp [gainSeries, List.isEmpty_iff, h, priceDeltas_length]
  omega

/-- The loss series is as long as the price series. -/
theorem lossSeries_length (prices : List ℚ) (h : prices ≠ []) :
    (lossSeries prices).length = prices.length := by
  have hp : 0 < prices.length := List.length_pos.mpr h
  simp [lossSeries, List.isEmpty_iff, h, priceDeltas_length]
  omega

/-- With at least 15 prices, the last 14 cells of the gain series are
the positive parts of the last 14 (all real) deltas. -/
theorem gainSeries_drop (prices : List ℚ) (h : 15 ≤ prices.length) :
    (gainSeries prices).drop (prices.length - 14) =
      ((priceDeltas prices).drop (prices.length - 15)).map
        (fun d => max d 0) := by
  have h0 : prices ≠ [] := by
    intro he
    rw [he] at h
    simp at h
  rw [gainSeries, if_neg (by simp [List.isEmpty_iff, h0])]
  have h14 : prices.length - 14 = (prices.length - 15) + 1 := by omega
  rw [h14, List.drop_succ_cons, ← List.map_drop]

/-- With at least 15 prices, the last 14 cells of the loss series are
the negative-part magnitudes of the last 14 (all real) deltas. -/
theorem lossSeries_drop (prices : List ℚ) (h : 15 ≤ prices.length) :
    (lossSeries prices).drop (prices.length - 14) =
      ((priceDeltas prices).drop (prices.length - 15)).map
        (fun d => max (-d) 0) := by
  have h0 : prices ≠ [] := by
    intro he
    rw [he] at h
    simp at h
  rw [lossSeries, if_neg (by simp [List.isEmpty_iff, h0])]
  have h14 : prices.length - 14 = (prices.length - 15) + 1 := by omega
  rw [h14, List.drop_succ_cons, ← List.map_drop]

/-- A finite sum of nonnegative rationals is zero only if every term is. -/
theorem list_sum_zero_of_nonneg {l : List ℚ} (h : ∀ x ∈ l, 0 ≤ x)
    (hs : l.sum = 0) : ∀ x ∈ l, x = 0 := by
  induction l with
  | nil => simp
  | cons a t ih =>
    rw [List.sum_cons] at hs
    have ha : 0 ≤ a := h a (List.mem_cons_self a t)
    have ht : 0 ≤ t.sum :=
      List.sum_nonneg fun x hx => h x (List.mem_cons_of_mem a hx)
    intro x hx
    rcases List.mem_cons.mp hx with rfl | hx'
    · linarith
    · exact ih (fun y hy => h y (List.mem_cons_of_mem a hy))
        (by linarith) x hx'

/-- `rsiLast` through the latest window means of its two series. -/
theorem rsiLast_eq (prices : List ℚ) (g l : ℚ)
    (hg : (rollingMean 14 (gainSeries prices)).getLast? = some (.val g))
    (hl : (rollingMean 14 (lossSeries prices)).getLast? = some (.val l)) :
    rsiLast prices =
      if l = 0 then (if g = 0 then .nan else .val 100)
      else .val (100 - 100 / (1 + g / l)) := by
  unfold rsiLast
  rw [hg, hl]

/-- Claim C3: for a price series long enough that the last 14-period
window holds only real deltas, if those deltas are not all zero the RSI
is a number in [0,100]; and when they are all positive the average loss
is 0 and RSI is exactly 100 — the division by a zero loss is the IEEE
+∞, not a raised ZeroDivisionError. -/
theorem rsiLast_spec (prices : List ℚ) (h : 15 ≤ prices.length)
    (hnd : ¬ ∀ d ∈ (priceDeltas prices).drop (prices.length - 15), d = 0) :
    (∃ v, rsiLast prices = .val v ∧ 0 ≤ v ∧ v ≤ 100) ∧
    ((∀ d ∈ (priceDeltas prices).drop (prices.length - 15), 0 < d) →
      rsiLast prices = .val 100) := by
  have h0 : prices ≠ [] := by
    intro he
    rw [he] at h
    simp at h
  have hg := rollingMean_getLast_val 14 (gainSeries prices) (by norm_num)
    (by rw [gainSeries_length prices h0]; omega)
  have hl := rollingMean_getLast_val 14 (lossSeries prices) (by norm_num)
    (by rw [lossSeries_length prices h0]; omega)
  rw [gainSeries_length prices h0, gainSeries_drop prices h] at hg
  rw [lossSeries_length prices h0, lossSeries_drop prices h] at hl
  set ds := (priceDeltas prices).drop (prices.length - 15) with hds
  set Sg := (ds.map (fun d => max d 0)).sum with hSgdef
  set Sl := (ds.map (fun d => max (-d) 0)).sum with hSldef
  have hSg0 : 0 ≤ Sg := by
    rw [hSgdef]
    refine List.sum_nonneg ?_
    intro x hx
    obtain ⟨d, _, rfl⟩ := List.mem_map.mp hx
    exact le_max_right d 0
  have hSl0 : 0 ≤ Sl := by
    rw [hSldef]
    refine List.sum_nonneg ?_
    intro x hx
    obtain ⟨d, _, rfl⟩ := List.mem_map.mp hx
    exact le_max_right (-d) 0
  have hkey : ¬ (Sg = 0 ∧ Sl = 0) := by
    rintro ⟨hSgz, hSlz⟩
    apply hnd
    have hallg : ∀ x ∈ ds.map (fun e => max e 0), x = 0 := by
      refine list_sum_zero_of_nonneg ?_ (by rw [← hSgdef]; exact hSgz)
      intro x hx
      obtain ⟨e, _, rfl⟩ := List.mem_map.mp hx
      exact le_max_right e 0
    have halll : ∀ x ∈ ds.map (fun e => max (-e) 0), x = 0 := by
      refine list_sum_zero_of_nonneg ?_ (by rw [← hSldef]; exact hSlz)
      intro x hx
      obtain ⟨e, _, rfl⟩ := List.mem_map.mp hx
      exact le_max_right (-e) 0
    intro d hd
    have h1 : max d 0 = 0 :=
      hallg _ (List.mem_map_of_mem (fun e => max e 0) hd)
    have h2 : max (-d) 0 = 0 :=
      halll _ (List.mem_map_of_mem (fun e => max (-e) 0) hd)
    have hd1 : d ≤ 0 := le_of_le_of_eq (le_max_left d 0) h1
    have hd2 : -d ≤ 0 := le_of_le_of_eq (le_max_left (-d) 0) h2
    linarith
  rw [rsiLast_eq prices _ _ hg hl]
  by_cases hSlz : Sl = 0
  · have hSgnz : Sg ≠ 0 := fun hSgz => hkey ⟨hSgz, hSlz⟩
    have hgz : ¬ (Sg / ((14 : ℕ) : ℚ) = 0) := by
      simp [div_eq_zero_iff, hSgnz]
    rw [if_pos (by simp [hSlz]), if_neg hgz]
    exact ⟨⟨100, rfl, by norm_num, by norm_num⟩, fun _ => rfl⟩
  · have hlz : ¬ (Sl / ((14 : ℕ) : ℚ) = 0) := by
      simp [div_eq_zero_iff, hSlz]
    rw [if_neg hlz]
    have hSlpos : 0 < Sl := lt_of_le_of_ne hSl0 (Ne.symm hSlz)
    have hlpos : 0 < Sl / ((14 : ℕ) : ℚ) := by positivity
    have hr0 : 0 ≤ (Sg / ((14 : ℕ) : ℚ)) / (Sl / ((14 : ℕ) : ℚ)) :=
      div_nonneg (div_nonneg hSg0 (by norm_num)) (le_of_lt hlpos)
    have h1r : (1 : ℚ) ≤ 1 + (Sg / ((14 : ℕ) : ℚ)) / (Sl / ((14 : ℕ) : ℚ)) := by
      linarith
    have hfrac0 :
        0 < 100 / (1 + (Sg / ((14 : ℕ) : ℚ)) / (Sl / ((14 : ℕ) : ℚ))) := by
      positivity
    have hfrac1 :
        100 / (1 + (Sg / ((14 : ℕ) : ℚ)) / (Sl / ((14 : ℕ) : ℚ))) ≤ 100 :=
      div_le_self (by norm_num) h1r
    refine ⟨⟨_, rfl, by linarith, by linarith⟩, ?_⟩
    intro hpos
    exfalso
    apply hSlz
    rw [hSldef]
    refine List.sum_eq_zero ?_
    intro x hx
    obtain ⟨d, hd, rfl⟩ := List.mem_map.mp hx
    have := hpos d hd
    exact max_eq_right (by linarith)

/-- A strictly rising 15-price series for the C3 witness. -/
def upTrend : List ℚ :=
  [1, 2, 3, 4, 5, 6, 7, 8, 9, 10, 11, 12, 13, 14, 15]

/-- Witness for C3 at the rising series: all deltas positive, RSI 100. -/
theorem rsiLast_spec_witness :
    15 ≤ upTrend.length ∧
    (¬ ∀ d ∈ (priceDeltas upTrend).drop (upTrend.length - 15), d = 0) ∧
    ((∃ v, rsiLast upTrend = .val v ∧ 0 ≤ v ∧ v ≤ 100) ∧
      ((∀ d ∈ (priceDeltas upTrend).drop (upTrend.length - 15), 0 < d) →
        rsiLast upTrend = .val 100)) := by
  have hnd : ¬ ∀ d ∈ (priceDeltas upTrend).drop (upTrend.length - 15),
      d = 0 := by
    intro hall
    have h1 : (1 : ℚ) ∈ (priceDeltas upTrend).drop (upTrend.length - 15) := by
      norm_num [upTrend, priceDeltas]
    exact absurd (hall 1 h1) (by norm_num)
  exact ⟨by decide, hnd, rsiLast_spec upTrend (by decide) hnd⟩

/-! ### Sentiment classification (`Sentimental.py`, `Sector_Sentiment.py`).
The two pages each define their own `classify_sentiment`; VADER compound
polarity scores are rationals here. -/

namespace Sentimental

/-- `classify_sentiment` of `Sentimental.py`: (label, CSS class, color). -/
def classify_sentiment (score : ℚ) : String × String × String :=
  if score ≥ 5/100 then ("Bullish 📈", "bullish", "green")
  else if score ≤ -(5/100) then ("Bearish 📉", "bearish", "red")
  else ("Neutral ➖", "neutral", "gray")

end Sentimental

namespace SectorSentiment

/-- `classify_sentiment` of `Sector_Sentiment.py`: (label, CSS class). -/
def classify_sentiment (score : ℚ) : String × String :=
  if score ≥ 5/100 then ("Bullish 📈", "bullish")
  else if score ≤ -(5/100) then ("Bearish 📉", "bearish")
  else ("Neutral ➖", "neutral")

end SectorSentiment

/-- Claim C8: the per-article/aggregate classifier of `Sentimental.py`
and the one of `Sector_Sentiment.py` yield the same label for every
score, and the label is Bullish iff score ≥ 0.05, Bearish iff
score ≤ −0.05, Neutral iff strictly between — so 0.05 is Bullish, −0.05
is Bearish and 0 is Neutral. -/
theorem classify_sentiment_spec (score : ℚ) :
    (Sentimental.classify_sentiment score).1 =
      (SectorSentiment.classify_sentiment score).1 ∧
    ((Sentimental.classify_sentiment score).1 = "Bullish 📈" ↔
      5/100 ≤ score) ∧
    ((Sentimental.classify_sentiment score).1 = "Bearish 📉" ↔
      score ≤ -(5/100)) ∧
    ((Sentimental.classify_sentiment score).1 = "Neutral ➖" ↔
      (-(5/100) < score ∧ score < 5/100)) := by
  unfold Sentimental.classify_sentiment SectorSentiment.classify_sentiment
  split_ifs with h1 h2
  · exact ⟨rfl, iff_of_true rfl h1,
      iff_of_false (by decide) (fun hc => by linarith),
      iff_of_false (by decide)
        (fun hc => by rcases hc with ⟨ha, hb⟩; linarith)⟩
  · exact ⟨rfl, iff_of_false (by decide) h1, iff_of_true rfl h2,
      iff_of_false (by decide)
        (fun hc => by rcases hc with ⟨ha, hb⟩; linarith)⟩
  · exact ⟨rfl, iff_of_false (by decide) h1,
      iff_of_false (by decide) h2,
      iff_of_true rfl ⟨not_le.mp h2, not_le.mp h1⟩⟩

/-! ### Open-loop forecasting (`Prediction.py`). -/

/-- The open-loop prediction loop of `Prediction.py`: each step predicts
from the current window, records the prediction and feeds it back,
dropping the oldest entry.  `predict` stands for `model.predict` on one
window of scaled values. -/
def openLoopForecast (predict : List ℚ → ℚ) : Nat → List ℚ → List ℚ
  | 0, _ => []
  | n + 1, seq =>
    let pred := predict seq
    pred :: openLoopForecast predict n (seq.drop 1 ++ [pred])

/-- `MinMaxScaler(feature_range=(0,1)).inverse_transform` for a single
feature fitted on data with minimum `mn` and maximum `mx`. -/
def inverseScale (mn mx : ℚ) (x : ℚ) : ℚ := x * (mx - mn) + mn

/-- The forecasting block of `Prediction.py` (`main`, lines 158–166):
run the open loop for `prediction_periods` steps starting from the last
`lookback` scaled values, then inverse-transform every prediction. -/
def forecast (predict : List ℚ → ℚ) (mn mx : ℚ) (last_sequence : List ℚ)
    (prediction_periods : Nat) : List ℚ :=
  (openLoopForecast predict prediction_periods last_sequence).map
    (inverseScale mn mx)

/-- Claim C9: for every model behavior, fitted scale and lookback window,
the forecast returns exactly the requested number of predictions. -/
theorem forecast_length (predict : List ℚ → ℚ) (mn mx : ℚ)
    (last_sequence : List ℚ) (prediction_periods : Nat) :
    (forecast predict mn mx last_sequence prediction_periods).length =
      prediction_periods := by
  unfold forecast
  rw [List.length_map]
  induction prediction_periods generalizing last_sequence with
  | zero => rfl
  | succ n ih => simp [openLoopForecast, ih]
